import Mathlib

/-!
Shallow embedding of the compute-scheduling core of the proof-generation
node: the workload partitioner and result aggregator from
`src/crates/node/core/src/sharded.rs`, and the throughput/pricing
calibrators from `src/crates/node/calibrator/src/lib.rs`.

Conventions of the embedding:
* Rust `u64`/`usize` values are modelled as `Nat`; where the source can
  overflow `u64` (release-mode wrapping), the embedding applies the
  explicit reduction `% 2 ^ 64`.
* Byte buffers (`Vec<u8>`) are `List Nat`.
* `anyhow::Result<T>` is `Except String T`.
* `f64` quantities of the calibrator are modelled by `F64`, rational
  numbers extended with the special values infinity and NaN, with the
  IEEE-754 rules for the operations the calibrator performs (signs are
  elided: every quantity the calibrator computes is nonnegative).
* External collaborators (the SP1 proving engine, wall-clock timers) are
  modelled by explicit environment records carrying their observed
  results, so the control flow of the embedded functions is exactly the
  source's.
-/

/-- The modulus of Rust `u64` arithmetic. -/
def U64_SIZE : Nat := 2 ^ 64

/-- Opaque proof artifact (`sp1_sdk::SP1Proof`); the embedding only ever
copies and compares artifacts, so a tag suffices. -/
structure SP1Proof where
  tag : Nat
deriving DecidableEq, Repr

/-- Opaque input stream (`sp1_sdk::SP1Stdin`). -/
structure SP1Stdin where
  data : List Nat
deriving DecidableEq, Repr

/-- Proof modes of `sp1_sdk::SP1ProofMode`. -/
inductive SP1ProofMode where
  | core
  | compressed
  | plonk
  | groth16
deriving DecidableEq, Repr

/-- Configuration for sharded proving (`ShardingConfig` in `sharded.rs`). -/
structure ShardingConfig where
  num_gpus : Nat
  shards_per_gpu : Nat
  min_cycles_per_shard : Nat
  max_cycles_per_shard : Nat
  enable_checkpointing : Bool
  checkpoint_interval : Nat
deriving DecidableEq, Repr

/-- Validity invariant of a capacity configuration, from the spec (§3):
`device_count ≥ 1`, `shards_per_device ≥ 1`,
`min_cycles_per_shard ≤ max_cycles_per_shard`. -/
def ShardingConfig.valid (c : ShardingConfig) : Prop :=
  1 ≤ c.num_gpus ∧ 1 ≤ c.shards_per_gpu ∧
    c.min_cycles_per_shard ≤ c.max_cycles_per_shard

instance : DecidablePred ShardingConfig.valid := fun c => by
  unfold ShardingConfig.valid; infer_instance

/-- Sharded proof workload for multi-GPU processing (`ProofShard` in
`sharded.rs`). -/
structure ProofShard where
  shard_id : Nat
  gpu_id : Nat
  program_data : List Nat
  stdin_data : SP1Stdin
  start_cycle : Nat
  end_cycle : Nat
  mode : SP1ProofMode
  checkpoint_data : Option (List Nat)
deriving DecidableEq, Repr

/-- Membership of a cycle in a shard's half-open cycle range
`[start_cycle, end_cycle)`. -/
def ProofShard.covers (s : ProofShard) (x : Nat) : Prop :=
  s.start_cycle ≤ x ∧ x < s.end_cycle

instance (s : ProofShard) (x : Nat) : Decidable (s.covers x) := by
  unfold ProofShard.covers; infer_instance

instance {ε α : Type} [DecidableEq ε] [DecidableEq α] : DecidableEq (Except ε α) := fun a b =>
  match a, b with
  | .ok x, .ok y =>
    if h : x = y then .isTrue (by rw [h]) else .isFalse (fun hh => by cases hh; exact h rfl)
  | .error x, .error y =>
    if h : x = y then .isTrue (by rw [h]) else .isFalse (fun hh => by cases hh; exact h rfl)
  | .ok _, .error _ => .isFalse (fun hh => by cases hh)
  | .error _, .ok _ => .isFalse (fun hh => by cases hh)

/-- Result from a single GPU shard (`ShardResult` in `sharded.rs`).
`processing_time` is in nanoseconds; the proof field is
`Result<SP1Proof>` in the source. -/
structure ShardResult where
  shard_id : Nat
  gpu_id : Nat
  proof : Except String SP1Proof
  cycles : Nat
  processing_time : Nat
  memory_usage : Nat
  gpu_utilization : ℚ
deriving DecidableEq, Repr

/-- The `ShardedProver` state relevant to partitioning: its GPU device
list and its configuration. The runtime-only fields of the Rust struct
(semaphores, prover cache, checkpoint store, metrics, CUDA optimizer,
monitor) carry no data the partitioning and aggregation logic reads, and
are elided. -/
structure ShardedProver where
  gpu_devices : List Nat
  config : ShardingConfig
deriving DecidableEq, Repr

/-- Construction of a `ShardedProver` (`ShardedProver::new` /
`ShardedProver::new_sync`): the device list is `(0..config.num_gpus)`. -/
def ShardedProver.new (config : ShardingConfig) : ShardedProver :=
  { gpu_devices := List.range config.num_gpus, config := config }

/-- Cycle estimation (`ShardedProver::estimate_cycles`): the source
ignores both arguments and returns the constant `10_000_000`. -/
def ShardedProver.estimate_cycles (_self : ShardedProver)
    (_program : List Nat) (_stdin : SP1Stdin) : Nat :=
  10000000

/-- Checkpoint creation (`ShardedProver::create_checkpoint`): the source
returns `Ok(format!("checkpoint_cycle_{}", cycle).into_bytes())`,
unconditionally successful, so the embedding is total and returns the
bytes. -/
def ShardedProver.create_checkpoint (cycle : Nat) : List Nat :=
  ("checkpoint_cycle_" ++ toString cycle).data.map Char.toNat

/-- The `cycles_per_shard` computation inside
`ShardedProver::create_shards`:
`(total_cycles / num_gpus as u64).max(min_cycles_per_shard).min(max_cycles_per_shard)`.
Note the division is by `num_gpus` (floor division); `num_gpus = 0`
would panic in Rust, and every claim assumes `num_gpus ≥ 1`. -/
def cyclesPerShard (config : ShardingConfig) (total_cycles : Nat) : Nat :=
  min (max (total_cycles / config.num_gpus) config.min_cycles_per_shard)
    config.max_cycles_per_shard

/-- Shard construction (`ShardedProver::create_shards`): iterates over
`self.gpu_devices` with `enumerate`, giving shard `shard_id` on device
`gpu_id` the range
`[shard_id * cycles_per_shard, min(shard_id * cycles_per_shard + cycles_per_shard, total_cycles))`
with `u64` wrapping arithmetic, and attaches a checkpoint exactly when
checkpointing is enabled and the start offset is positive. The Rust
signature returns `Result<Vec<ProofShard>>`, but the only fallible call
(`create_checkpoint`) always returns `Ok`, so the embedding is the pure
shard list. -/
def ShardedProver.create_shards (self : ShardedProver) (program : List Nat)
    (stdin : SP1Stdin) (mode : SP1ProofMode) (total_cycles : Nat) :
    List ProofShard :=
  let cycles_per_shard := cyclesPerShard self.config total_cycles
  self.gpu_devices.enum.map (fun p =>
    let shard_id := p.1
    let gpu_id := p.2
    let start_cycle := shard_id * cycles_per_shard % U64_SIZE
    let end_cycle := min ((start_cycle + cycles_per_shard) % U64_SIZE) total_cycles
    { shard_id := shard_id
      gpu_id := gpu_id
      program_data := program
      stdin_data := stdin
      start_cycle := start_cycle
      end_cycle := end_cycle
      mode := mode
      checkpoint_data :=
        if self.config.enable_checkpointing ∧ 0 < start_cycle then
          some (ShardedProver.create_checkpoint start_cycle)
        else none })

/-- The shard `create_shards` builds at index `i` when the prover was
constructed by `ShardedProver.new` (so device `i` sits at index `i`). -/
def mkShard (config : ShardingConfig) (program : List Nat) (stdin : SP1Stdin)
    (mode : SP1ProofMode) (total_cycles : Nat) (i : Nat) : ProofShard :=
  let cycles_per_shard := cyclesPerShard config total_cycles
  let start_cycle := i * cycles_per_shard % U64_SIZE
  let end_cycle := min ((start_cycle + cycles_per_shard) % U64_SIZE) total_cycles
  { shard_id := i
    gpu_id := i
    program_data := program
    stdin_data := stdin
    start_cycle := start_cycle
    end_cycle := end_cycle
    mode := mode
    checkpoint_data :=
      if config.enable_checkpointing ∧ 0 < start_cycle then
        some (ShardedProver.create_checkpoint start_cycle)
      else none }

/-- First phase of `ShardedProver::combine_shards`: walk the shard
results in order, collecting the successful proofs; on the first failing
result return `Err(anyhow!("Shard {} failed: {}", shard_id, e))`. -/
def collectSuccessfulProofs : List ShardResult → Except String (List SP1Proof)
  | [] => .ok []
  | r :: rest =>
    match r.proof with
    | .ok proof =>
      match collectSuccessfulProofs rest with
      | .ok tail => .ok (proof :: tail)
      | .error e => .error e
    | .error e =>
      .error ("Shard " ++ toString r.shard_id ++ " failed: " ++ e)

/-- Result aggregation (`ShardedProver::combine_shards`): fails if any
shard failed (first phase) or if there are no successful proofs; for a
single successful proof returns it directly; for several, the source
comments that real recursion is unimplemented and returns
`successful_proofs.into_iter().next().unwrap()` — the first proof — as a
placeholder. -/
def ShardedProver.combine_shards (shard_results : List ShardResult) :
    Except String SP1Proof :=
  match collectSuccessfulProofs shard_results with
  | .error e => .error e
  | .ok successful_proofs =>
    match successful_proofs with
    | [] => .error "No successful shards to combine"
    | [p] => .ok p
    | p :: _ :: _ => .ok p

/-! Calibrator embedding (`src/crates/node/calibrator/src/lib.rs`). -/

/-- Model of the `f64` values arising in the calibrator: a rational, or
infinity, or NaN. The operations implement the IEEE-754 rules for the
cases the calibrator exercises; signs are elided because every quantity
the calibrator computes is nonnegative. -/
inductive F64 where
  | finite : ℚ → F64
  | inf : F64
  | nan : F64
deriving DecidableEq, Repr

/-- Multiplication on `F64` values. -/
def F64.mul : F64 → F64 → F64
  | .finite a, .finite b => .finite (a * b)
  | .finite a, .inf => if a = 0 then .nan else .inf
  | .inf, .finite b => if b = 0 then .nan else .inf
  | .inf, .inf => .inf
  | _, _ => .nan

/-- Addition on `F64` values. -/
def F64.add : F64 → F64 → F64
  | .finite a, .finite b => .finite (a + b)
  | .finite _, .inf => .inf
  | .inf, .finite _ => .inf
  | .inf, .inf => .inf
  | _, _ => .nan

/-- Division on `F64` values: division of a nonzero finite value by zero
yields infinity, `0/0` yields NaN, and a finite value divided by
infinity yields zero. -/
def F64.div : F64 → F64 → F64
  | .finite a, .finite b =>
    if b = 0 then (if a = 0 then .nan else .inf) else .finite (a / b)
  | .finite _, .inf => .finite 0
  | .inf, .finite _ => .inf
  | _, _ => .nan

/-- Metrics for the calibration of the prover (`CalibratorMetrics`). -/
structure CalibratorMetrics where
  pgus_per_second : F64
  pgu_price : F64
deriving DecidableEq, Repr

/-- The default implementation of a calibrator (`SinglePassCalibrator`). -/
structure SinglePassCalibrator where
  elf : List Nat
  stdin : SP1Stdin
  cost_per_hour : ℚ
  utilization_rate : ℚ
  profit_margin : ℚ
deriving DecidableEq, Repr

/-- Multi-GPU calibrator (`ShardedCalibrator`). -/
structure ShardedCalibrator where
  elf : List Nat
  stdin : SP1Stdin
  cost_per_hour : ℚ
  utilization_rate : ℚ
  profit_margin : ℚ
  num_gpus : Nat
deriving DecidableEq, Repr

/-- Observed behaviour of the external collaborators during one
calibration run: whether `client.execute` succeeded, the gas it
reported (`report.gas`, an `Option<u64>` read with `unwrap_or(0)`),
whether every `client.prove` call succeeded, and the elapsed wall-clock
seconds measured around the proof generation. -/
structure CalibEnv where
  execOk : Bool
  gas : Option Nat
  proveOk : Bool
  elapsedSecs : ℚ
deriving DecidableEq, Repr

/-- Single-pass calibration (`SinglePassCalibrator::calibrate`): execute
to obtain the gas, prove once under timing, then compute
`pgus_per_second = prover_gas / elapsed` and price it with the economic
model; the pricing performs no division-by-zero check. -/
def SinglePassCalibrator.calibrate (self : SinglePassCalibrator)
    (env : CalibEnv) : Except String CalibratorMetrics :=
  if !env.execOk then .error "Failed to execute the prover" else
  let prover_gas : Nat := env.gas.getD 0
  if !env.proveOk then .error "Failed to generate the proof" else
  let pgus_per_second := F64.div (.finite prover_gas) (.finite env.elapsedSecs)
  let pgus_per_hour := F64.mul pgus_per_second (.finite 3600)
  let utilized_pgus_per_hour := F64.mul pgus_per_hour (.finite self.utilization_rate)
  let optimal_pgu_price := F64.div (.finite self.cost_per_hour) utilized_pgus_per_hour
  let pgu_price := F64.mul optimal_pgu_price (F64.add (.finite 1) (.finite self.profit_margin))
  .ok { pgus_per_second := pgus_per_second, pgu_price := pgu_price }

/-- Sharded calibration (`ShardedCalibrator::calibrate`): execute once
for the gas, run `num_gpus` proofs back-to-back (the loop adds
`prover_gas` to `total_gas` on each iteration and aborts on the first
failing proof — `env.proveOk` records that all succeeded), then
`effective_duration = elapsed / num_gpus` and
`pgus_per_second = total_gas / effective_duration`, priced with the same
economic model and, again, no division-by-zero check. -/
def ShardedCalibrator.calibrate (self : ShardedCalibrator)
    (env : CalibEnv) : Except String CalibratorMetrics :=
  if !env.execOk then .error "Failed to execute the prover" else
  let prover_gas : Nat := env.gas.getD 0
  if !env.proveOk then .error "Failed to generate the proof" else
  let total_gas : Nat := (List.range self.num_gpus).foldl (fun acc _ => acc + prover_gas) 0
  let effective_duration := F64.div (.finite env.elapsedSecs) (.finite self.num_gpus)
  let pgus_per_second := F64.div (.finite total_gas) effective_duration
  let pgus_per_hour := F64.mul pgus_per_second (.finite 3600)
  let utilized_pgus_per_hour := F64.mul pgus_per_hour (.finite self.utilization_rate)
  let optimal_pgu_price := F64.div (.finite self.cost_per_hour) utilized_pgus_per_hour
  let pgu_price := F64.mul optimal_pgu_price (F64.add (.finite 1) (.finite self.profit_margin))
  .ok { pgus_per_second := pgus_per_second, pgu_price := pgu_price }

/-- Cycles-per-shard as the spec's partitioning algorithm states it
(§4.1), for comparison with `cyclesPerShard`. Modelled from the spec:
`ceil(total_cycles / shard_count)` with
`shard_count = device_count × shards_per_device`, clamped to
`[min_cycles_per_shard, max_cycles_per_shard]`. -/
def specCyclesPerShard (config : ShardingConfig) (total_cycles : Nat) : Nat :=
  let shard_count := config.num_gpus * config.shards_per_gpu
  min (max ((total_cycles + shard_count - 1) / shard_count) config.min_cycles_per_shard)
    config.max_cycles_per_shard

/-! Helper lemmas about the shard list produced by `create_shards`. -/

lemma zip_self_eq_map {α : Type} (l : List α) : l.zip l = l.map fun a => (a, a) := by
  induction l with
  | nil => rfl
  | cons a l ih => simp [ih]

lemma range_enum (n : Nat) :
    (List.range n).enum = (List.range n).map fun i => (i, i) := by
  rw [List.enum_eq_zip_range, List.length_range, zip_self_eq_map]

lemma create_shards_new_eq (config : ShardingConfig) (program : List Nat)
    (stdin : SP1Stdin) (mode : SP1ProofMode) (total_cycles : Nat) :
    (ShardedProver.new config).create_shards program stdin mode total_cycles
      = (List.range config.num_gpus).map
          (mkShard config program stdin mode total_cycles) := by
  unfold ShardedProver.create_shards ShardedProver.new
  simp only [range_enum, List.map_map]
  rfl

lemma mem_create_shards_new {config : ShardingConfig} {program : List Nat}
    {stdin : SP1Stdin} {mode : SP1ProofMode} {total_cycles : Nat} {s : ProofShard} :
    s ∈ (ShardedProver.new config).create_shards program stdin mode total_cycles
      ↔ ∃ i < config.num_gpus, mkShard config program stdin mode total_cycles i = s := by
  rw [create_shards_new_eq]
  simp [List.mem_map]

lemma mkShard_start_end {config : ShardingConfig} (program : List Nat)
    (stdin : SP1Stdin) (mode : SP1ProofMode) (total_cycles : Nat) {i : Nat}
    (hi : i < config.num_gpus)
    (hnof : config.num_gpus * cyclesPerShard config total_cycles < U64_SIZE) :
    (mkShard config program stdin mode total_cycles i).start_cycle
        = i * cyclesPerShard config total_cycles
      ∧ (mkShard config program stdin mode total_cycles i).end_cycle
        = min ((i + 1) * cyclesPerShard config total_cycles) total_cycles := by
  have h1 : i * cyclesPerShard config total_cycles < U64_SIZE :=
    lt_of_le_of_lt (Nat.mul_le_mul_right _ (le_of_lt hi)) hnof
  have h2 : (i + 1) * cyclesPerShard config total_cycles < U64_SIZE :=
    lt_of_le_of_lt (Nat.mul_le_mul_right _ (Nat.succ_le_of_lt hi)) hnof
  constructor
  · show i * cyclesPerShard config total_cycles % U64_SIZE = _
    exact Nat.mod_eq_of_lt h1
  · show min ((i * cyclesPerShard config total_cycles % U64_SIZE
        + cyclesPerShard config total_cycles) % U64_SIZE) total_cycles = _
    rw [Nat.mod_eq_of_lt h1]
    have hs : i * cyclesPerShard config total_cycles + cyclesPerShard config total_cycles
        = (i + 1) * cyclesPerShard config total_cycles := by ring
    rw [hs, Nat.mod_eq_of_lt h2]

/-! Claim theorems. -/

/-- C1, counterexample: with the valid configuration
`num_gpus = 3, shards_per_gpu = 1, min = 1, max = 100` and
`total_cycles = 10`, `create_shards` computes
`cycles_per_shard = 10 / 3 = 3` (floor division) and emits the ranges
`[0,3) [3,6) [6,9)`, so cycle `9` belongs to no shard: the union of the
ranges is not `[0, total_cycles)`. -/
theorem c1_counterexample :
    ShardingConfig.valid ⟨3, 1, 1, 100, false, 0⟩ ∧ 0 < 10 ∧
      ∀ s ∈ (ShardedProver.new ⟨3, 1, 1, 100, false, 0⟩).create_shards [] ⟨[]⟩ .core 10,
        ¬s.covers 9 := by decide

/-- C2, counterexample: with the valid configuration
`num_gpus = 2, shards_per_gpu = 3, min = 1, max = 100` and
`total_cycles = 10`, `create_shards` emits `2` shards (one per GPU
device), not `num_gpus × shards_per_gpu = 6`. -/
theorem c2_counterexample :
    ShardingConfig.valid ⟨2, 3, 1, 100, false, 0⟩ ∧ 0 < 10 ∧
      ((ShardedProver.new ⟨2, 3, 1, 100, false, 0⟩).create_shards [] ⟨[]⟩ .core 10).length = 2 ∧
      ((ShardedProver.new ⟨2, 3, 1, 100, false, 0⟩).create_shards [] ⟨[]⟩ .core 10).length ≠ 2 * 3 := by
  decide

/-- C2 (amended): for every configuration and input, the number of
shards produced by `create_shards` equals `num_gpus` — one shard per
device, with `shards_per_gpu` playing no role in shard creation (it only
sizes the per-device semaphore). -/
theorem c2_amended_shard_count (config : ShardingConfig) (program : List Nat)
    (stdin : SP1Stdin) (mode : SP1ProofMode) (total_cycles : Nat) :
    ((ShardedProver.new config).create_shards program stdin mode total_cycles).length
      = config.num_gpus := by
  rw [create_shards_new_eq]
  simp

/-- C3, counterexample: with the valid configuration
`num_gpus = 3, shards_per_gpu = 1, min = 1, max = 100` and
`total_cycles = 10`, the code computes `cycles_per_shard = 3`
(`⌊10 / 3⌋`, dividing by `num_gpus` alone), while the claim's formula
`ceil(total_cycles / shard_count)` with
`shard_count = num_gpus × shards_per_gpu` gives `4`; accordingly shard 1
starts at cycle `3`, not at `1 · 4 = 4`. -/
theorem c3_counterexample :
    ShardingConfig.valid ⟨3, 1, 1, 100, false, 0⟩ ∧
      cyclesPerShard ⟨3, 1, 1, 100, false, 0⟩ 10 = 3 ∧
      specCyclesPerShard ⟨3, 1, 1, 100, false, 0⟩ 10 = 4 ∧
      (((ShardedProver.new ⟨3, 1, 1, 100, false, 0⟩).create_shards [] ⟨[]⟩ .core 10).map
          ProofShard.start_cycle) = [0, 3, 6] := by
  decide

/-- C4, counterexample: with the valid configuration
`num_gpus = 2, shards_per_gpu = 1, min = 1, max = 100` and
`total_cycles = 0`, `create_shards` emits `2` shards (it always emits
one per GPU device), not exactly one zero-length shard. -/
theorem c4_counterexample :
    ShardingConfig.valid ⟨2, 1, 1, 100, false, 0⟩ ∧
      ((ShardedProver.new ⟨2, 1, 1, 100, false, 0⟩).create_shards [] ⟨[]⟩ .core 0).length = 2 ∧
      ((ShardedProver.new ⟨2, 1, 1, 100, false, 0⟩).create_shards [] ⟨[]⟩ .core 0).length ≠ 1 := by
  decide

/-- C6: the recursive-composition step is an unimplemented placeholder.
With two shard results that both succeeded, carrying the distinct
artifacts `⟨0⟩` (shard 0) and `⟨1⟩` (shard 1), `combine_shards` returns
shard 0's artifact alone — an artifact derived from a proper subset of
the shards — instead of folding both artifacts via the proving engine's
recursive composition. -/
theorem c6_recursion_placeholder :
    ShardedProver.combine_shards
        [{ shard_id := 0, gpu_id := 0, proof := .ok ⟨0⟩, cycles := 5000000,
           processing_time := 1, memory_usage := 0, gpu_utilization := 0 },
         { shard_id := 1, gpu_id := 1, proof := .ok ⟨1⟩, cycles := 5000000,
           processing_time := 1, memory_usage := 0, gpu_utilization := 0 }]
      = .ok ⟨0⟩ ∧ SP1Proof.mk 0 ≠ SP1Proof.mk 1 := by
  decide

/-- C7: for a singleton list whose single shard result succeeded with
artifact `p`, `combine_shards` returns exactly `p` (identity law of
aggregation). -/
theorem c7_single_shard_identity (r : ShardResult) (p : SP1Proof)
    (h : r.proof = .ok p) :
    ShardedProver.combine_shards [r] = .ok p := by
  simp [ShardedProver.combine_shards, collectSuccessfulProofs, h]

/-- C7 witness: combining the singleton successful result of shard 0
with artifact `⟨42⟩` returns `⟨42⟩` unchanged. -/
theorem c7_single_shard_identity_witness :
    ShardedProver.combine_shards
        [{ shard_id := 0, gpu_id := 0, proof := .ok ⟨42⟩, cycles := 10000000,
           processing_time := 1, memory_usage := 0, gpu_utilization := 0 }]
      = .ok ⟨42⟩ :=
  c7_single_shard_identity _ _ rfl

/-- C10: `estimate_cycles` is the constant `10_000_000`; in particular
any two calls — on any two provers, programs and input streams — return
equal estimates, so the cycle estimate that drives partitioning is
independent of both the program and the input. -/
theorem c10_estimate_cycles_constant :
    ∀ (sp1 sp2 : ShardedProver) (prog1 prog2 : List Nat) (in1 in2 : SP1Stdin),
      sp1.estimate_cycles prog1 in1 = 10000000 ∧
        sp1.estimate_cycles prog1 in1 = sp2.estimate_cycles prog2 in2 :=
  fun _ _ _ _ _ _ => ⟨rfl, rfl⟩

/-- C1 (amended): for every valid configuration and `total_cycles > 0`
(and cycle arithmetic within `u64`), the shard ranges produced by
`create_shards` are pairwise non-overlapping, but their union is
`[0, min(num_gpus · cycles_per_shard, total_cycles))` with
`cycles_per_shard = clamp(⌊total_cycles / num_gpus⌋, min, max)` — which
equals `[0, total_cycles)` only when
`num_gpus · cycles_per_shard ≥ total_cycles`; floor division or a small
`max_cycles_per_shard` leaves the tail uncovered. -/
theorem c1_amended_coverage (config : ShardingConfig) (program : List Nat)
    (stdin : SP1Stdin) (mode : SP1ProofMode) (total_cycles : Nat)
    (hvalid : config.valid) (hpos : 0 < total_cycles)
    (hnof : config.num_gpus * cyclesPerShard config total_cycles < U64_SIZE) :
    (∀ s ∈ (ShardedProver.new config).create_shards program stdin mode total_cycles,
      ∀ t ∈ (ShardedProver.new config).create_shards program stdin mode total_cycles,
        s ≠ t → ∀ x : Nat, ¬(s.covers x ∧ t.covers x)) ∧
    (∀ x : Nat,
      (∃ s ∈ (ShardedProver.new config).create_shards program stdin mode total_cycles,
          s.covers x)
        ↔ x < min (config.num_gpus * cyclesPerShard config total_cycles) total_cycles) := by
  constructor
  · rintro s hs t ht hne x ⟨⟨hsx1, hsx2⟩, htx1, htx2⟩
    obtain ⟨i, hi, rfl⟩ := mem_create_shards_new.mp hs
    obtain ⟨j, hj, rfl⟩ := mem_create_shards_new.mp ht
    obtain ⟨si, ei⟩ := mkShard_start_end program stdin mode total_cycles hi hnof
    obtain ⟨sj, ej⟩ := mkShard_start_end program stdin mode total_cycles hj hnof
    rw [si] at hsx1
    rw [ei] at hsx2
    rw [sj] at htx1
    rw [ej] at htx2
    have hij : i ≠ j := fun hh => hne (by rw [hh])
    have hsx2' : x < (i + 1) * cyclesPerShard config total_cycles :=
      lt_of_lt_of_le hsx2 (min_le_left _ _)
    have htx2' : x < (j + 1) * cyclesPerShard config total_cycles :=
      lt_of_lt_of_le htx2 (min_le_left _ _)
    rcases Nat.lt_or_ge i j with hlt | hge
    · have : (i + 1) * cyclesPerShard config total_cycles
          ≤ j * cyclesPerShard config total_cycles :=
        Nat.mul_le_mul_right _ (Nat.succ_le_of_lt hlt)
      omega
    · have hlt' : j < i := lt_of_le_of_ne hge (Ne.symm hij)
      have : (j + 1) * cyclesPerShard config total_cycles
          ≤ i * cyclesPerShard config total_cycles :=
        Nat.mul_le_mul_right _ (Nat.succ_le_of_lt hlt')
      omega
  · intro x
    constructor
    · rintro ⟨s, hs, hx1, hx2⟩
      obtain ⟨i, hi, rfl⟩ := mem_create_shards_new.mp hs
      obtain ⟨si, ei⟩ := mkShard_start_end program stdin mode total_cycles hi hnof
      rw [ei] at hx2
      have hx2a : x < (i + 1) * cyclesPerShard config total_cycles :=
        lt_of_lt_of_le hx2 (min_le_left _ _)
      have hx2b : x < total_cycles := lt_of_lt_of_le hx2 (min_le_right _ _)
      have hle : (i + 1) * cyclesPerShard config total_cycles
          ≤ config.num_gpus * cyclesPerShard config total_cycles :=
        Nat.mul_le_mul_right _ (Nat.succ_le_of_lt hi)
      exact lt_min (lt_of_lt_of_le hx2a hle) hx2b
    · intro hx
      have hx1 : x < config.num_gpus * cyclesPerShard config total_cycles :=
        lt_of_lt_of_le hx (min_le_left _ _)
      have hx2 : x < total_cycles := lt_of_lt_of_le hx (min_le_right _ _)
      have hcps : 0 < cyclesPerShard config total_cycles := by
        rcases Nat.eq_zero_or_pos (cyclesPerShard config total_cycles) with h0 | h
        · rw [h0, Nat.mul_zero] at hx1; omega
        · exact h
      have hi : x / cyclesPerShard config total_cycles < config.num_gpus :=
        (Nat.div_lt_iff_lt_mul hcps).mpr hx1
      refine ⟨mkShard config program stdin mode total_cycles
        (x / cyclesPerShard config total_cycles),
        mem_create_shards_new.mpr ⟨_, hi, rfl⟩, ?_, ?_⟩
      · rw [(mkShard_start_end program stdin mode total_cycles hi hnof).1]
        exact Nat.div_mul_le_self x _
      · rw [(mkShard_start_end program stdin mode total_cycles hi hnof).2]
        refine lt_min ?_ hx2
        have hdm := Nat.div_add_mod x (cyclesPerShard config total_cycles)
        have hm : x % cyclesPerShard config total_cycles
            < cyclesPerShard config total_cycles := Nat.mod_lt x hcps
        have hexp : (x / cyclesPerShard config total_cycles + 1)
              * cyclesPerShard config total_cycles
            = cyclesPerShard config total_cycles
                * (x / cyclesPerShard config total_cycles)
              + cyclesPerShard config total_cycles := by ring
        omega

/-- C1 witness: the amended coverage statement instantiated at the valid
configuration `num_gpus = 3, shards_per_gpu = 1, min = 1, max = 100` and
`total_cycles = 10`, where `cycles_per_shard = 3` and the union of the
ranges is `[0, min(9, 10)) = [0, 9)`. -/
theorem c1_amended_coverage_witness :
    (ShardingConfig.valid ⟨3, 1, 1, 100, false, 0⟩ ∧ 0 < 10 ∧
        3 * cyclesPerShard ⟨3, 1, 1, 100, false, 0⟩ 10 < U64_SIZE) ∧
    ((∀ s ∈ (ShardedProver.new ⟨3, 1, 1, 100, false, 0⟩).create_shards [] ⟨[]⟩ .core 10,
       ∀ t ∈ (ShardedProver.new ⟨3, 1, 1, 100, false, 0⟩).create_shards [] ⟨[]⟩ .core 10,
         s ≠ t → ∀ x : Nat, ¬(s.covers x ∧ t.covers x)) ∧
     (∀ x : Nat,
       (∃ s ∈ (ShardedProver.new ⟨3, 1, 1, 100, false, 0⟩).create_shards [] ⟨[]⟩ .core 10,
           s.covers x)
         ↔ x < min (3 * cyclesPerShard ⟨3, 1, 1, 100, false, 0⟩ 10) 10)) :=
  ⟨⟨by decide, by decide, by decide⟩,
    c1_amended_coverage ⟨3, 1, 1, 100, false, 0⟩ [] ⟨[]⟩ .core 10
      (by decide) (by decide) (by decide)⟩

/-- C3 (amended): the partitioner computes cycles-per-shard as
`⌊total_cycles / num_gpus⌋` — floor division, and division by the device
count alone rather than by `num_gpus × shards_per_gpu` — clamped to
`[min_cycles_per_shard, max_cycles_per_shard]`; shard `i`'s range is
`[i · cycles_per_shard, min((i+1) · cycles_per_shard, total_cycles))` as
the claim states. -/
theorem c3_amended_shard_ranges (config : ShardingConfig) (program : List Nat)
    (stdin : SP1Stdin) (mode : SP1ProofMode) (total_cycles : Nat)
    (hvalid : config.valid)
    (hnof : config.num_gpus * cyclesPerShard config total_cycles < U64_SIZE) :
    cyclesPerShard config total_cycles
        = max config.min_cycles_per_shard
            (min (total_cycles / config.num_gpus) config.max_cycles_per_shard)
    ∧ ∀ i < config.num_gpus,
        ∃ s ∈ (ShardedProver.new config).create_shards program stdin mode total_cycles,
          s.shard_id = i ∧ s.start_cycle = i * cyclesPerShard config total_cycles
            ∧ s.end_cycle = min ((i + 1) * cyclesPerShard config total_cycles) total_cycles := by
  constructor
  · have h3 := hvalid.2.2
    unfold cyclesPerShard
    generalize total_cycles / config.num_gpus = d
    omega
  · intro i hi
    exact ⟨mkShard config program stdin mode total_cycles i,
      mem_create_shards_new.mpr ⟨i, hi, rfl⟩, rfl,
      (mkShard_start_end program stdin mode total_cycles hi hnof).1,
      (mkShard_start_end program stdin mode total_cycles hi hnof).2⟩

/-- C3 witness: the amended range statement instantiated at the valid
configuration `num_gpus = 3, shards_per_gpu = 1, min = 1, max = 100` and
`total_cycles = 10`, where `cycles_per_shard = 3`. -/
theorem c3_amended_shard_ranges_witness :
    (ShardingConfig.valid ⟨3, 1, 1, 100, false, 0⟩ ∧
        3 * cyclesPerShard ⟨3, 1, 1, 100, false, 0⟩ 10 < U64_SIZE) ∧
    (cyclesPerShard ⟨3, 1, 1, 100, false, 0⟩ 10 = max 1 (min (10 / 3) 100) ∧
     ∀ i < 3,
        ∃ s ∈ (ShardedProver.new ⟨3, 1, 1, 100, false, 0⟩).create_shards [] ⟨[]⟩ .core 10,
          s.shard_id = i ∧ s.start_cycle = i * cyclesPerShard ⟨3, 1, 1, 100, false, 0⟩ 10
            ∧ s.end_cycle = min ((i + 1) * cyclesPerShard ⟨3, 1, 1, 100, false, 0⟩ 10) 10) :=
  ⟨⟨by decide, by decide⟩,
    c3_amended_shard_ranges ⟨3, 1, 1, 100, false, 0⟩ [] ⟨[]⟩ .core 10 (by decide) (by decide)⟩

/-- C4 (amended): when `total_cycles = 0`, `create_shards` emits
`num_gpus` shards (not always exactly one), every one of them with
`end_cycle = 0`; the shard with id `0` is the zero-length shard `[0,0)`;
exactly one zero-length shard is emitted precisely in the single-GPU
configuration; and aggregating a single successful shard result is a
degenerate success, returning its artifact. -/
theorem c4_amended_zero_total (config : ShardingConfig) (program : List Nat)
    (stdin : SP1Stdin) (mode : SP1ProofMode) (hvalid : config.valid) :
    ((ShardedProver.new config).create_shards program stdin mode 0).length = config.num_gpus
    ∧ (∀ s ∈ (ShardedProver.new config).create_shards program stdin mode 0, s.end_cycle = 0)
    ∧ (∃ s0 ∈ (ShardedProver.new config).create_shards program stdin mode 0,
        s0.shard_id = 0 ∧ s0.start_cycle = 0 ∧ s0.end_cycle = 0)
    ∧ (config.num_gpus = 1 →
        ∃ s0, (ShardedProver.new config).create_shards program stdin mode 0 = [s0]
          ∧ s0.start_cycle = 0 ∧ s0.end_cycle = 0)
    ∧ (∀ (r : ShardResult) (p : SP1Proof), r.proof = .ok p →
        ShardedProver.combine_shards [r] = .ok p) := by
  refine ⟨?_, ?_, ?_, ?_, ?_⟩
  · rw [create_shards_new_eq]; simp
  · intro s hs
    obtain ⟨i, hi, rfl⟩ := mem_create_shards_new.mp hs
    show min _ 0 = 0
    exact Nat.min_zero _
  · refine ⟨mkShard config program stdin mode 0 0,
      mem_create_shards_new.mpr ⟨0, hvalid.1, rfl⟩, rfl, ?_, Nat.min_zero _⟩
    show 0 * cyclesPerShard config 0 % U64_SIZE = 0
    simp
  · intro h1
    refine ⟨mkShard config program stdin mode 0 0, ?_, ?_, Nat.min_zero _⟩
    · rw [create_shards_new_eq, h1]
      rfl
    · show 0 * cyclesPerShard config 0 % U64_SIZE = 0
      simp
  · intro r p h
    simp [ShardedProver.combine_shards, collectSuccessfulProofs, h]

/-- C4 witness: the amended zero-cycles statement instantiated at the
valid single-GPU configuration
`num_gpus = 1, shards_per_gpu = 1, min = 1, max = 100`, where exactly
one zero-length shard is emitted. -/
theorem c4_amended_zero_total_witness :
    ShardingConfig.valid ⟨1, 1, 1, 100, false, 0⟩ ∧
    (((ShardedProver.new ⟨1, 1, 1, 100, false, 0⟩).create_shards [] ⟨[]⟩ .core 0).length = 1
     ∧ (∀ s ∈ (ShardedProver.new ⟨1, 1, 1, 100, false, 0⟩).create_shards [] ⟨[]⟩ .core 0,
          s.end_cycle = 0)
     ∧ (∃ s0 ∈ (ShardedProver.new ⟨1, 1, 1, 100, false, 0⟩).create_shards [] ⟨[]⟩ .core 0,
          s0.shard_id = 0 ∧ s0.start_cycle = 0 ∧ s0.end_cycle = 0)
     ∧ ((1 : Nat) = 1 →
          ∃ s0, (ShardedProver.new ⟨1, 1, 1, 100, false, 0⟩).create_shards [] ⟨[]⟩ .core 0 = [s0]
            ∧ s0.start_cycle = 0 ∧ s0.end_cycle = 0)
     ∧ (∀ (r : ShardResult) (p : SP1Proof), r.proof = .ok p →
          ShardedProver.combine_shards [r] = .ok p)) :=
  ⟨by decide, c4_amended_zero_total ⟨1, 1, 1, 100, false, 0⟩ [] ⟨[]⟩ .core (by decide)⟩

lemma collect_error_of_exists (results : List ShardResult)
    (h : ∃ r ∈ results, r.proof.isOk = false) :
    ∃ r ∈ results, ∃ e, r.proof = .error e ∧
      collectSuccessfulProofs results
        = .error ("Shard " ++ toString r.shard_id ++ " failed: " ++ e) := by
  induction results with
  | nil => simp at h
  | cons r rest ih =>
    cases hr : r.proof with
    | error e =>
      exact ⟨r, List.mem_cons_self r rest, e, hr, by
        simp [collectSuccessfulProofs, hr]⟩
    | ok p =>
      have h' : ∃ x ∈ rest, x.proof.isOk = false := by
        rcases h with ⟨x, hx, hxf⟩
        rcases List.mem_cons.mp hx with rfl | hx'
        · rw [hr] at hxf; simp [Except.isOk, Except.toBool] at hxf
        · exact ⟨x, hx', hxf⟩
      rcases ih h' with ⟨x, hx, e, hxe, hce⟩
      exact ⟨x, List.mem_cons_of_mem r hx, e, hxe, by
        simp [collectSuccessfulProofs, hr, hce]⟩

/-- C5: for every list of shard results containing at least one failure,
`combine_shards` returns a workload-level error that names a failing
shard's id (the first failing one, in the message
`"Shard {id} failed: {e}"`), and never returns a proof artifact. -/
theorem c5_failure_propagation (results : List ShardResult)
    (h : ∃ r ∈ results, r.proof.isOk = false) :
    (∃ r ∈ results, ∃ e, r.proof = .error e ∧
        ShardedProver.combine_shards results
          = .error ("Shard " ++ toString r.shard_id ++ " failed: " ++ e))
    ∧ ∀ p : SP1Proof, ShardedProver.combine_shards results ≠ .ok p := by
  rcases collect_error_of_exists results h with ⟨r, hr, e, hre, hc⟩
  have hcomb : ShardedProver.combine_shards results
      = .error ("Shard " ++ toString r.shard_id ++ " failed: " ++ e) := by
    unfold ShardedProver.combine_shards
    rw [hc]
  refine ⟨⟨r, hr, e, hre, hcomb⟩, fun p hp => ?_⟩
  rw [hcomb] at hp
  cases hp

/-- C5 witness: a workload with one successful shard (id 0) and one
failing shard (id 1) aggregates to the composite error naming shard 1,
not to any artifact. -/
theorem c5_failure_propagation_witness :
    (∃ r ∈ [({ shard_id := 0, gpu_id := 0, proof := .ok ⟨7⟩, cycles := 5000000,
                processing_time := 1, memory_usage := 0, gpu_utilization := 0 } : ShardResult),
             { shard_id := 1, gpu_id := 1, proof := .error "prove failed", cycles := 5000000,
                processing_time := 1, memory_usage := 0, gpu_utilization := 0 }],
        r.proof.isOk = false) ∧
    ((∃ r ∈ [({ shard_id := 0, gpu_id := 0, proof := .ok ⟨7⟩, cycles := 5000000,
                 processing_time := 1, memory_usage := 0, gpu_utilization := 0 } : ShardResult),
              { shard_id := 1, gpu_id := 1, proof := .error "prove failed", cycles := 5000000,
                 processing_time := 1, memory_usage := 0, gpu_utilization := 0 }],
         ∃ e, r.proof = .error e ∧
           ShardedProver.combine_shards
               [{ shard_id := 0, gpu_id := 0, proof := .ok ⟨7⟩, cycles := 5000000,
                   processing_time := 1, memory_usage := 0, gpu_utilization := 0 },
                { shard_id := 1, gpu_id := 1, proof := .error "prove failed", cycles := 5000000,
                   processing_time := 1, memory_usage := 0, gpu_utilization := 0 }]
             = .error ("Shard " ++ toString r.shard_id ++ " failed: " ++ e))
     ∧ ∀ p : SP1Proof,
         ShardedProver.combine_shards
             [{ shard_id := 0, gpu_id := 0, proof := .ok ⟨7⟩, cycles := 5000000,
                 processing_time := 1, memory_usage := 0, gpu_utilization := 0 },
              { shard_id := 1, gpu_id := 1, proof := .error "prove failed", cycles := 5000000,
                 processing_time := 1, memory_usage := 0, gpu_utilization := 0 }]
           ≠ .ok p) :=
  ⟨by decide, c5_failure_propagation _ (by decide)⟩

/-! Helper lemmas for the calibrator. -/

lemma F64.div_finite {a b : ℚ} (hb : b ≠ 0) :
    F64.div (.finite a) (.finite b) = .finite (a / b) := by
  simp [F64.div, hb]

lemma F64.div_finite_zero {a : ℚ} (ha : a ≠ 0) :
    F64.div (.finite a) (.finite 0) = .inf := by
  simp [F64.div, ha]

lemma F64.inf_mul_finite {b : ℚ} (hb : b ≠ 0) :
    F64.mul .inf (.finite b) = .inf := by
  simp [F64.mul, hb]

/-- The shared pricing chain of both calibrators, on a finite nonzero
throughput `t`: the price computes to
`cost / (t · 3600 · utilization) · (1 + margin)` exactly. -/
lemma pricing_chain (t c u m : ℚ) (ht : t ≠ 0) (hu : u ≠ 0) :
    F64.mul
        (F64.div (.finite c) (F64.mul (F64.mul (.finite t) (.finite 3600)) (.finite u)))
        (F64.add (.finite 1) (.finite m))
      = .finite (c / (t * 3600 * u) * (1 + m)) := by
  have h1 : t * 3600 ≠ 0 := mul_ne_zero ht (by norm_num)
  have h2 : t * 3600 * u ≠ 0 := mul_ne_zero h1 hu
  simp [F64.mul, F64.add, F64.div, h2]

lemma foldl_add_const {α : Type} (g : Nat) (l : List α) (s : Nat) :
    l.foldl (fun acc _ => acc + g) s = s + l.length * g := by
  induction l generalizing s with
  | nil => simp
  | cons a l ih => simp [ih, Nat.succ_mul]; ring

/-- C8: both calibrators price a run with measured throughput `t` at
exactly `(cost_per_hour / (t × 3600 × utilization_rate)) × (1 + profit_margin)`:
the single-pass calibrator with `t = prover_gas / elapsed`, and the
sharded calibrator with
`t = total_gas / (elapsed / num_gpus)` where `total_gas = num_gpus · prover_gas`. -/
theorem c8_pricing_formula
    (cal : SinglePassCalibrator) (shc : ShardedCalibrator) (env1 env2 : CalibEnv)
    (h1e : env1.execOk = true) (h1p : env1.proveOk = true)
    (h1g : env1.gas.getD 0 ≠ 0) (h1d : env1.elapsedSecs ≠ 0)
    (h1u : cal.utilization_rate ≠ 0)
    (h2e : env2.execOk = true) (h2p : env2.proveOk = true)
    (h2g : env2.gas.getD 0 ≠ 0) (h2d : env2.elapsedSecs ≠ 0)
    (h2u : shc.utilization_rate ≠ 0) (h2n : shc.num_gpus ≠ 0) :
    cal.calibrate env1 = .ok
        { pgus_per_second := .finite ((env1.gas.getD 0 : ℚ) / env1.elapsedSecs)
          pgu_price := .finite (cal.cost_per_hour
            / ((env1.gas.getD 0 : ℚ) / env1.elapsedSecs * 3600 * cal.utilization_rate)
            * (1 + cal.profit_margin)) }
    ∧ shc.calibrate env2 = .ok
        { pgus_per_second := .finite ((shc.num_gpus * (env2.gas.getD 0) : ℚ)
            / (env2.elapsedSecs / shc.num_gpus))
          pgu_price := .finite (shc.cost_per_hour
            / ((shc.num_gpus * (env2.gas.getD 0) : ℚ) / (env2.elapsedSecs / shc.num_gpus)
                * 3600 * shc.utilization_rate)
            * (1 + shc.profit_margin)) } := by
  constructor
  · have ht : (env1.gas.getD 0 : ℚ) / env1.elapsedSecs ≠ 0 :=
      div_ne_zero (Nat.cast_ne_zero.mpr h1g) h1d
    unfold SinglePassCalibrator.calibrate
    rw [h1e, h1p]
    simp only [Bool.not_true, Bool.false_eq_true, if_false]
    rw [F64.div_finite h1d, pricing_chain _ _ _ _ ht h1u]
  · have hn : (shc.num_gpus : ℚ) ≠ 0 := Nat.cast_ne_zero.mpr h2n
    have hed : env2.elapsedSecs / shc.num_gpus ≠ 0 := div_ne_zero h2d hn
    have hgas : ((shc.num_gpus * env2.gas.getD 0 : Nat) : ℚ)
        = (shc.num_gpus : ℚ) * (env2.gas.getD 0 : ℚ) := by push_cast; ring
    have ht : (shc.num_gpus : ℚ) * (env2.gas.getD 0 : ℚ) / (env2.elapsedSecs / shc.num_gpus) ≠ 0 :=
      div_ne_zero (mul_ne_zero hn (Nat.cast_ne_zero.mpr h2g)) hed
    unfold ShardedCalibrator.calibrate
    rw [h2e, h2p]
    simp only [Bool.not_true, Bool.false_eq_true, if_false]
    rw [foldl_add_const, List.length_range, Nat.zero_add]
    rw [F64.div_finite hn, F64.div_finite hed, hgas, pricing_chain _ _ _ _ ht h2u]

/-- C8 witness: the spec's calibration test vector — `cost_per_hour = 0.1`,
`utilization_rate = 0.5`, `profit_margin = 0.1`, throughput `1000`
(gas 1000 in 1 second) — prices at
`(0.1 / (1000 × 3600 × 0.5)) × 1.1 = 11/180000000 ≈ 6.111e-8`; the
sharded calibrator with 2 GPUs, gas 500 per run in 1 total second has
throughput `2·500/(1/2) = 2000` and prices accordingly. -/
theorem c8_pricing_formula_witness :
    SinglePassCalibrator.calibrate ⟨[], ⟨[]⟩, 1/10, 1/2, 1/10⟩ ⟨true, some 1000, true, 1⟩
        = .ok { pgus_per_second := .finite ((1000 : ℚ) / 1)
                pgu_price := .finite ((1/10 : ℚ) / ((1000 : ℚ) / 1 * 3600 * (1/2)) * (1 + 1/10)) }
    ∧ ShardedCalibrator.calibrate ⟨[], ⟨[]⟩, 1/10, 1/2, 1/10, 2⟩ ⟨true, some 500, true, 1⟩
        = .ok { pgus_per_second := .finite (((2 : Nat) * (500 : Nat) : ℚ) / ((1 : ℚ) / (2 : Nat)))
                pgu_price := .finite ((1/10 : ℚ)
                  / (((2 : Nat) * (500 : Nat) : ℚ) / ((1 : ℚ) / (2 : Nat)) * 3600 * (1/2))
                  * (1 + 1/10)) }
    ∧ (1/10 : ℚ) / ((1000 : ℚ) / 1 * 3600 * (1/2)) * (1 + 1/10) = 11 / 180000000 :=
  ⟨(c8_pricing_formula ⟨[], ⟨[]⟩, 1/10, 1/2, 1/10⟩ ⟨[], ⟨[]⟩, 1/10, 1/2, 1/10, 2⟩
      ⟨true, some 1000, true, 1⟩ ⟨true, some 500, true, 1⟩
      rfl rfl (by decide) (by norm_num) (by norm_num)
      rfl rfl (by decide) (by norm_num) (by norm_num) (by decide)).1,
   (c8_pricing_formula ⟨[], ⟨[]⟩, 1/10, 1/2, 1/10⟩ ⟨[], ⟨[]⟩, 1/10, 1/2, 1/10, 2⟩
      ⟨true, some 1000, true, 1⟩ ⟨true, some 500, true, 1⟩
      rfl rfl (by decide) (by norm_num) (by norm_num)
      rfl rfl (by decide) (by norm_num) (by norm_num) (by decide)).2,
   by norm_num⟩

/-- C9, counterexample: with `cost_per_hour = 0.1`,
`utilization_rate = 0.5`, `profit_margin = 0.1` and a run that measured
zero gas (zero throughput) in 1 second, `calibrate` does not return a
calibration error: it returns `Ok` metrics whose `pgu_price` is the
division-by-zero result, infinity. -/
theorem c9_counterexample :
    SinglePassCalibrator.calibrate ⟨[], ⟨[]⟩, 1/10, 1/2, 1/10⟩ ⟨true, some 0, true, 1⟩
      = .ok { pgus_per_second := .finite 0, pgu_price := .inf } := by
  norm_num [SinglePassCalibrator.calibrate, F64.div, F64.mul, F64.add]

/-- C9 (amended): the pricing code performs no division-by-zero check:
whenever execution and proving succeed, `calibrate` returns `Ok` even if
the measured throughput or the utilized capacity is zero, and in that
case the returned `pgu_price` is infinite (for a positive cost per hour
and nonnegative profit margin), silently coerced rather than reported as
a fatal calibration error. -/
theorem c9_amended_infinite_price (cal : SinglePassCalibrator) (env : CalibEnv)
    (he : env.execOk = true) (hp : env.proveOk = true)
    (hd : env.elapsedSecs ≠ 0)
    (hc : 0 < cal.cost_per_hour) (hm : 0 ≤ cal.profit_margin)
    (hz : env.gas.getD 0 = 0 ∨ cal.utilization_rate = 0) :
    ∃ t : F64, cal.calibrate env = .ok { pgus_per_second := t, pgu_price := .inf } := by
  have hm2 : (1 : ℚ) + cal.profit_margin ≠ 0 := by linarith
  have hadd : F64.add (.finite 1) (.finite cal.profit_margin)
      = .finite (1 + cal.profit_margin) := rfl
  rcases hz with hz | hz
  · refine ⟨.finite 0, ?_⟩
    unfold SinglePassCalibrator.calibrate
    rw [he, hp]
    simp only [Bool.not_true, Bool.false_eq_true, if_false]
    rw [hz, Nat.cast_zero, F64.div_finite hd, zero_div]
    have hu0 : F64.mul (F64.mul (.finite 0) (.finite 3600)) (.finite cal.utilization_rate)
        = .finite 0 := by simp [F64.mul]
    rw [hu0, F64.div_finite_zero (ne_of_gt hc), hadd, F64.inf_mul_finite hm2]
  · refine ⟨.finite ((env.gas.getD 0 : ℚ) / env.elapsedSecs), ?_⟩
    unfold SinglePassCalibrator.calibrate
    rw [he, hp]
    simp only [Bool.not_true, Bool.false_eq_true, if_false]
    rw [F64.div_finite hd]
    have hu0 : F64.mul
        (F64.mul (.finite ((env.gas.getD 0 : ℚ) / env.elapsedSecs)) (.finite 3600))
        (.finite cal.utilization_rate) = .finite 0 := by
      rw [hz]; simp [F64.mul]
    rw [hu0, F64.div_finite_zero (ne_of_gt hc), hadd, F64.inf_mul_finite hm2]

/-- C9 witness: the amended statement instantiated at
`cost_per_hour = 0.1`, `utilization_rate = 0.5`, `profit_margin = 0.1`,
zero measured gas and 2 elapsed seconds: the run yields `Ok` metrics
with an infinite price. -/
theorem c9_amended_infinite_price_witness :
    ((2 : ℚ) ≠ 0 ∧ (0 : ℚ) < 1/10 ∧ (0 : ℚ) ≤ 1/10 ∧ (some 0).getD 0 = 0) ∧
    ∃ t : F64,
      SinglePassCalibrator.calibrate ⟨[], ⟨[]⟩, 1/10, 1/2, 1/10⟩ ⟨true, some 0, true, 2⟩
        = .ok { pgus_per_second := t, pgu_price := .inf } :=
  ⟨⟨by norm_num, by norm_num, by norm_num, rfl⟩,
    c9_amended_infinite_price ⟨[], ⟨[]⟩, 1/10, 1/2, 1/10⟩ ⟨true, some 0, true, 2⟩
      rfl rfl (by norm_num) (by norm_num) (by norm_num) (Or.inl rfl)⟩
